import Mathlib

/-!
Verification of the CMS-report-to-SIF conversion tool.

This development embeds the Python sources of the tool
(models.py, cms_parser.py, sif_filler.py, pdf_loader.py, main.py,
main_script.py) as Lean definitions and proves properties about them.

The regex-based field extraction of cms_parser.py is embedded by a small
backtracking matcher for the exact patterns the source uses.  Every
pattern in the source has the shape
  (?:ALT1|ALT2|...) SEP (CAPTURE)
where repetition only ever applies to a single character class, so the
matcher represents a pattern as alternative prefix sequences, a shared
separator sequence and a capture sequence of class repetitions, and
implements leftmost search with greedy, backtracking repetition in the
same priority order as the Python re module.
-/

/-! ### Python string helpers -/

/-- The characters Python `str.strip()` removes (ASCII whitespace). -/
def pyWsChar (c : Char) : Bool :=
  c == ' ' || c == '\t' || c == '\n' || c == '\r' || c == '\x0b' || c == '\x0c'

/-- Python `str.strip()` on a list of characters. -/
def pyStrip (l : List Char) : List Char :=
  ((l.dropWhile pyWsChar).reverse.dropWhile pyWsChar).reverse

/-- Truthiness of a Python value that is either None or a string:
None and the empty string are falsy. -/
def pyTruthy : Option String → Bool
  | none => false
  | some s => !(s == "")

/-- Python `a or b` for two None-or-string values. -/
def pyOr (a b : Option String) : Option String :=
  if pyTruthy a then a else b

/-- Python `s.startswith(p)`. -/
def pyStartsWith (s p : String) : Bool :=
  s.data.take p.data.length == p.data

/-! ### A matcher for the regex dialect used by cms_parser.py -/

/-- One item of a pattern: a greedy repetition of a character class
(`cls c lo hi` is the class `c` repeated at least `lo` and at most `hi`
times, unbounded when `hi = none`), or the MULTILINE `^` anchor. -/
inductive RItem where
  | cls (c : Char → Bool) (lo : Nat) (hi : Option Nat)
  | bol

/-- A single occurrence of a character class. -/
def rOne (c : Char → Bool) : RItem := .cls c 1 (some 1)

/-- `*` on a character class. -/
def rStar (c : Char → Bool) : RItem := .cls c 0 none

/-- `+` on a character class. -/
def rPlus (c : Char → Bool) : RItem := .cls c 1 none

/-- A source pattern `(?:ALT1|ALT2|...)SEP(CAP)`: alternative prefixes
`pres` (tried in order), shared separator `tail`, capture group `cap`.
All patterns in cms_parser.py end with their single capture group. -/
structure RPat where
  pres : List (List RItem)
  tail : List RItem
  cap : List RItem

/-- The number of characters a greedy class repetition tries first:
its upper bound capped by the length of the maximal run. -/
def capBound (hi : Option Nat) (maxTake : Nat) : Nat :=
  match hi with | none => maxTake | some h => Nat.min h maxTake

/-- All ways a sequence of items can match a prefix of `l`, as
(consumed, remaining) pairs in the backtracking priority order of the
Python re module: greedy repetitions offer the longest take first, and
later items backtrack before earlier ones.  `prev` is the character
just before `l`, used by the `^` anchor (MULTILINE). -/
def matchSeq : List RItem → Option Char → List Char → List (List Char × List Char)
  | [], _, l => [([], l)]
  | .bol :: rest, prev, l =>
      if prev = none ∨ prev = some '\n' then matchSeq rest prev l else []
  | .cls c lo hi :: rest, prev, l =>
      let maxTake := (l.takeWhile c).length
      let capN := capBound hi maxTake
      let ks := ((List.range (capN + 1)).reverse).filter (fun k => decide (lo ≤ k))
      ks.flatMap (fun k =>
        let pre := l.take k
        let prev2 := match pre.getLast? with | some ch => some ch | none => prev
        (matchSeq rest prev2 (l.drop k)).map (fun pr => (pre ++ pr.1, pr.2)))

/-- First `some` produced by `f` along a list, in order. -/
def firstSome {α β : Type} (f : α → Option β) : List α → Option β
  | [] => none
  | a :: rest => match f a with | some b => some b | none => firstSome f rest

/-- Try to match a whole pattern at the current position, returning the
text captured by the group and the remainder after the match.
Alternatives are tried in order; for each prefix+separator match the
capture group is tried on the remainder (the capture group is last in
every source pattern, so its first, greediest success is final). -/
def matchPatAt (p : RPat) (prev : Option Char) (l : List Char) :
    Option (List Char × List Char) :=
  firstSome (fun pre =>
    firstSome (fun pr =>
      let prev2 := match (pr.1 : List Char).getLast? with | some ch => some ch | none => prev
      match matchSeq p.cap prev2 pr.2 with
      | [] => none
      | q :: _ => some q)
      (matchSeq (pre ++ p.tail) prev l))
    p.pres

/-- `re.search`: try the pattern at every position, leftmost first. -/
def searchPat (p : RPat) : Option Char → List Char → Option (List Char × List Char)
  | prev, l =>
    match matchPatAt p prev l with
    | some r => some r
    | none =>
      match l with
      | [] => none
      | c :: rest => searchPat p (some c) rest

/-- The local helper `find` of parse_cms_report:
`match.group(1).strip()` of the first match, or None. -/
def reFind (p : RPat) (text : String) : Option String :=
  match searchPat p none text.data with
  | some r => some (String.mk (pyStrip r.1))
  | none => none

/-- Captures of all non-overlapping matches, scanning left to right
(`re.findall`), fuelled by the text length. -/
def reFindAllAux (p : RPat) : Nat → List Char → List (List Char)
  | 0, _ => []
  | Nat.succ fuel, l =>
    match searchPat p none l with
    | none => []
    | some r => r.1 :: reFindAllAux p fuel r.2

/-- The local helper `find_all` of parse_cms_report:
`[m.strip() for m in re.findall(...) if m.strip()]`. -/
def reFindAllStripped (p : RPat) (text : String) : List String :=
  (((reFindAllAux p (text.data.length + 1) text.data).map pyStrip).filter
    (fun m => !m.isEmpty)).map String.mk

/-! ### Character classes of the source patterns -/

/-- `[:\s]`. -/
def colonWs (c : Char) : Bool := c == ':' || pyWsChar c

/-- `[:\s#]`. -/
def colonWsHash (c : Char) : Bool := c == ':' || c == '#' || pyWsChar c

/-- `[^\n]`. -/
def notNl (c : Char) : Bool := !(c == '\n')

/-- `[A-Z0-9\-]` under re.IGNORECASE. -/
def alnumDash (c : Char) : Bool := c.isAlpha || c.isDigit || c == '-'

/-- `[A-F0-9:]` under re.IGNORECASE. -/
def hexColonChar (c : Char) : Bool :=
  c.isDigit || ('A' ≤ c && c ≤ 'F') || ('a' ≤ c && c ≤ 'f') || c == ':'

/-- `[0-9\/\-\.]`. -/
def dateChar (c : Char) : Bool := c.isDigit || c == '/' || c == '-' || c == '.'

/-- `[0-9\.]`. -/
def fwChar (c : Char) : Bool := c.isDigit || c == '.'

/-- `[A-Z]` and `[a-z]` under re.IGNORECASE. -/
def letterCI (c : Char) : Bool := c.isAlpha

/-- `\.` as a class. -/
def dotChar (c : Char) : Bool := c == '.'

/-- A literal character under re.IGNORECASE. -/
def ciChar (c : Char) : Char → Bool := fun x => x == c.toLower || x == c.toUpper

/-- A literal word under re.IGNORECASE. -/
def ciLit (s : String) : List RItem := s.data.map (fun c => rOne (ciChar c))

/-- A case-sensitive literal word. -/
def csLit (s : String) : List RItem := s.data.map (fun c => rOne (fun x => x == c))

/-- `\s*`. -/
def wsOpt : RItem := rStar pyWsChar

/-! ### The patterns of parse_cms_report, one per `find`/`find_all` call -/

/-- `(?:Wind\s*Farm|WF|Farm\s*Name)[:\s]+([^\n]+)`, IGNORECASE. -/
def windFarmPat : RPat :=
  ⟨[ciLit "Wind" ++ [wsOpt] ++ ciLit "Farm", ciLit "WF", ciLit "Farm" ++ [wsOpt] ++ ciLit "Name"],
   [rPlus colonWs], [rPlus notNl]⟩

/-- `(?:Turbine\s*Number|WTG|Wind\s*Turbine)[:\s#]*([A-Z0-9\-]+)`, IGNORECASE. -/
def turbineNumberPat : RPat :=
  ⟨[ciLit "Turbine" ++ [wsOpt] ++ ciLit "Number", ciLit "WTG",
    ciLit "Wind" ++ [wsOpt] ++ ciLit "Turbine"],
   [rStar colonWsHash], [rPlus alnumDash]⟩

/-- `(?:Turbine\s*Type|Model|Type)[:\s]+([^\n]+)`, IGNORECASE. -/
def turbineTypePat : RPat :=
  ⟨[ciLit "Turbine" ++ [wsOpt] ++ ciLit "Type", ciLit "Model", ciLit "Type"],
   [rPlus colonWs], [rPlus notNl]⟩

/-- `(?:Location|Site|Address)[:\s]+([^\n]+)`, IGNORECASE. -/
def locationPat : RPat :=
  ⟨[ciLit "Location", ciLit "Site", ciLit "Address"], [rPlus colonWs], [rPlus notNl]⟩

/-- `(?:Site\s*Address|Address)[:\s]+([^\n]+)`, IGNORECASE. -/
def siteAddressPat : RPat :=
  ⟨[ciLit "Site" ++ [wsOpt] ++ ciLit "Address", ciLit "Address"],
   [rPlus colonWs], [rPlus notNl]⟩

/-- `(?:Service\s*Life\s*Year|SLY|Year)[:\s]+(\d{4})`, IGNORECASE. -/
def serviceLifeYearPat : RPat :=
  ⟨[ciLit "Service" ++ [wsOpt] ++ ciLit "Life" ++ [wsOpt] ++ ciLit "Year",
    ciLit "SLY", ciLit "Year"],
   [rPlus colonWs], [.cls Char.isDigit 4 (some 4)]⟩

/-- `(?:Technician|Tech)[:\s]*([A-Z][a-z]+\s+[A-Z][a-z]+)`, IGNORECASE
(used with re.findall). -/
def technicianPat : RPat :=
  ⟨[ciLit "Technician", ciLit "Tech"],
   [rStar colonWs],
   [rOne letterCI, rPlus letterCI, rPlus pyWsChar, rOne letterCI, rPlus letterCI]⟩

/-- `(?:Technician|Service\s*Tech)[:\s]+([^\n]+)`, IGNORECASE. -/
def technicianFallbackPat : RPat :=
  ⟨[ciLit "Technician", ciLit "Service" ++ [wsOpt] ++ ciLit "Tech"],
   [rPlus colonWs], [rPlus notNl]⟩

/-- `(?:Service\s*Manager|Manager|Supervisor)[:\s]+([^\n]+)`, IGNORECASE. -/
def serviceManagerPat : RPat :=
  ⟨[ciLit "Service" ++ [wsOpt] ++ ciLit "Manager", ciLit "Manager", ciLit "Supervisor"],
   [rPlus colonWs], [rPlus notNl]⟩

/-- `(?:Commissioning\s*Date|Commission\s*Date)[:\s]+([0-9\/\-\.]+)`, IGNORECASE. -/
def commissioningDatePat : RPat :=
  ⟨[ciLit "Commissioning" ++ [wsOpt] ++ ciLit "Date",
    ciLit "Commission" ++ [wsOpt] ++ ciLit "Date"],
   [rPlus colonWs], [rPlus dateChar]⟩

/-- `(?:Service\s*Date|Inspection\s*Date|Date)[:\s]+([0-9\/\-\.]+)`, IGNORECASE. -/
def serviceDatePat : RPat :=
  ⟨[ciLit "Service" ++ [wsOpt] ++ ciLit "Date",
    ciLit "Inspection" ++ [wsOpt] ++ ciLit "Date", ciLit "Date"],
   [rPlus colonWs], [rPlus dateChar]⟩

/-- `(?:MAC\s*Address|DDAU\s*MAC|MAC)[:\s]+([A-F0-9:]+)`, IGNORECASE. -/
def macPat : RPat :=
  ⟨[ciLit "MAC" ++ [wsOpt] ++ ciLit "Address", ciLit "DDAU" ++ [wsOpt] ++ ciLit "MAC",
    ciLit "MAC"],
   [rPlus colonWs], [rPlus hexColonChar]⟩

/-- The capture group `(\d{1,3}\.\d{1,3}\.\d{1,3}\.\d{1,3})`. -/
def quadCap : List RItem :=
  [.cls Char.isDigit 1 (some 3), rOne dotChar,
   .cls Char.isDigit 1 (some 3), rOne dotChar,
   .cls Char.isDigit 1 (some 3), rOne dotChar,
   .cls Char.isDigit 1 (some 3)]

/-- `(?:IP\s*Address|IP)[:\s]+(\d{1,3}\.\d{1,3}\.\d{1,3}\.\d{1,3})`, IGNORECASE. -/
def ipPat : RPat :=
  ⟨[ciLit "IP" ++ [wsOpt] ++ ciLit "Address", ciLit "IP"], [rPlus colonWs], quadCap⟩

/-- `(?:Default\s*Gateway|Gateway)[:\s]+(\d{1,3}\.\d{1,3}\.\d{1,3}\.\d{1,3})`, IGNORECASE. -/
def gatewayPat : RPat :=
  ⟨[ciLit "Default" ++ [wsOpt] ++ ciLit "Gateway", ciLit "Gateway"],
   [rPlus colonWs], quadCap⟩

/-- `(?:Controller\s*Type|Controller)[:\s]+([^\n]+)`, IGNORECASE. -/
def controllerTypePat : RPat :=
  ⟨[ciLit "Controller" ++ [wsOpt] ++ ciLit "Type", ciLit "Controller"],
   [rPlus colonWs], [rPlus notNl]⟩

/-- `(?:DAS\s*Server|Server)[:\s]+([^\n]+)`, IGNORECASE. -/
def dasServerPat : RPat :=
  ⟨[ciLit "DAS" ++ [wsOpt] ++ ciLit "Server", ciLit "Server"],
   [rPlus colonWs], [rPlus notNl]⟩

/-- `(?:Serial\s*Number|S/N|Serial)[:\s]+([A-Z0-9\-]+)`, IGNORECASE. -/
def serialNumberPat : RPat :=
  ⟨[ciLit "Serial" ++ [wsOpt] ++ ciLit "Number", ciLit "S/N", ciLit "Serial"],
   [rPlus colonWs], [rPlus alnumDash]⟩

/-- `(?:Firmware\s*Version|FW\s*Version|Firmware)[:\s]+([0-9\.]+)`, IGNORECASE. -/
def firmwareVersionPat : RPat :=
  ⟨[ciLit "Firmware" ++ [wsOpt] ++ ciLit "Version", ciLit "FW" ++ [wsOpt] ++ ciLit "Version",
    ciLit "Firmware"],
   [rPlus colonWs], [rPlus fwChar]⟩

/-- `(?:^Name|Name)[:\s]+([^\n]+)`, MULTILINE (case-sensitive: the
explicit flags argument replaces the default IGNORECASE). -/
def namePat : RPat :=
  ⟨[[RItem.bol] ++ csLit "Name", csLit "Name"], [rPlus colonWs], [rPlus notNl]⟩

/-- `(?:^Number|Number)[:\s]+([^\n]+)`, MULTILINE (case-sensitive). -/
def numberPat : RPat :=
  ⟨[[RItem.bol] ++ csLit "Number", csLit "Number"], [rPlus colonWs], [rPlus notNl]⟩

/-! ### models.py: the canonical record and the field mapping -/

/-- The dataclass CmsReportData of models.py.  All attributes are
optional strings defaulting to None. -/
structure CmsReportData where
  wind_farm : Option String := none
  turbine_number : Option String := none
  turbine_type : Option String := none
  location : Option String := none
  service_life_year : Option String := none
  technicians : Option String := none
  service_manager : Option String := none
  commissioning_date : Option String := none
  service_date : Option String := none
  ddaus_mac : Option String := none
  ip_address : Option String := none
  turbine_ip : Option String := none
  gateway : Option String := none
  controller_type : Option String := none
  das_server : Option String := none
  serial_number : Option String := none
  firmware_version : Option String := none
  raw_text : Option String := none

/-- `self.__dict__.items()` of a CmsReportData instance: the declared
attributes in declaration order with their values. -/
def CmsReportData.attrs (r : CmsReportData) : List (String × Option String) :=
  [("wind_farm", r.wind_farm),
   ("turbine_number", r.turbine_number),
   ("turbine_type", r.turbine_type),
   ("location", r.location),
   ("service_life_year", r.service_life_year),
   ("technicians", r.technicians),
   ("service_manager", r.service_manager),
   ("commissioning_date", r.commissioning_date),
   ("service_date", r.service_date),
   ("ddaus_mac", r.ddaus_mac),
   ("ip_address", r.ip_address),
   ("turbine_ip", r.turbine_ip),
   ("gateway", r.gateway),
   ("controller_type", r.controller_type),
   ("das_server", r.das_server),
   ("serial_number", r.serial_number),
   ("firmware_version", r.firmware_version),
   ("raw_text", r.raw_text)]

/-- CmsReportData.to_dict: the dictionary view,
`{k: v for k, v in self.__dict__.items() if v is not None and k != 'raw_text'}`. -/
def CmsReportData.to_dict (r : CmsReportData) : List (String × String) :=
  r.attrs.filterMap (fun p =>
    match p.2 with
    | some v => if p.1 == "raw_text" then none else some (p.1, v)
    | none => none)

/-- The declared attribute names of the record type CmsReportData. -/
def cmsAttrNames : List String := (({} : CmsReportData).attrs).map Prod.fst

/-- CMS_TO_SIF_MAP of models.py, in source order. -/
def CMS_TO_SIF_MAP : List (String × String) :=
  [("wind_farm", "Wind farm number"),
   ("turbine_number", "Wind turbine number"),
   ("turbine_type", "Wind turbine type_2"),
   ("location", "Site location"),
   ("service_life_year", "Service life year"),
   ("technicians", "Service technician 1"),
   ("service_manager", "Service manager"),
   ("commissioning_date", "DateRow1"),
   ("service_date", "Date"),
   ("ddaus_mac", "MAC address DDAU"),
   ("ip_address", "IP address DDAU"),
   ("turbine_ip", "IP address of the wind turbine"),
   ("gateway", "Gateway"),
   ("controller_type", "Controller type"),
   ("das_server", "DAS Server"),
   ("serial_number", "Serial number"),
   ("firmware_version", "Firmware version"),
   ("gearbox_info", "Gearbox manufacturer type and gearbox ratio"),
   ("generator_info", "Generator manufacturer and type"),
   ("main_bearing_info", "Main bearing manufacturer and type"),
   ("hub_height", "Hub height optional"),
   ("owner", "Owner optional"),
   ("service_car", "Service car number optional")]

/-- SIF_TO_CMS_MAP of models.py, derived by swapping the pairs. -/
def SIF_TO_CMS_MAP : List (String × String) :=
  CMS_TO_SIF_MAP.map (fun p => (p.2, p.1))

/-! ### cms_parser.py: parse_cms_report -/

/-- parse_cms_report of cms_parser.py.  Each `let` mirrors one local
variable of the source; reFind and reFindAllStripped are its local
helpers `find` and `find_all`; the reassignments of turbine_number and
wind_farm mirror the two fallback `if` blocks; pyOr mirrors the
Python `or` in the constructor call. -/
def parse_cms_report (text : String) : CmsReportData :=
  let wind_farm := reFind windFarmPat text
  let turbine_number := reFind turbineNumberPat text
  let turbine_type := reFind turbineTypePat text
  let location := reFind locationPat text
  let site_address := reFind siteAddressPat text
  let service_life_year := reFind serviceLifeYearPat text
  let technicians_list := reFindAllStripped technicianPat text
  let technicians := if technicians_list.isEmpty then reFind technicianFallbackPat text
    else some (String.intercalate ", " technicians_list)
  let service_manager := reFind serviceManagerPat text
  let commissioning_date := reFind commissioningDatePat text
  let service_date := reFind serviceDatePat text
  let ddaus_mac := reFind macPat text
  let ip_address := reFind ipPat text
  let gateway := reFind gatewayPat text
  let controller_type := reFind controllerTypePat text
  let das_server := reFind dasServerPat text
  let serial_number := reFind serialNumberPat text
  let firmware_version := reFind firmwareVersionPat text
  let name_field := reFind namePat text
  let turbine_number :=
    if pyTruthy name_field && !pyTruthy turbine_number then name_field else turbine_number
  let number_field := reFind numberPat text
  let wind_farm :=
    if pyTruthy number_field && !pyTruthy wind_farm then number_field else wind_farm
  { wind_farm := pyOr wind_farm number_field
    turbine_number := pyOr turbine_number name_field
    turbine_type := turbine_type
    location := pyOr location site_address
    service_life_year := service_life_year
    technicians := technicians
    service_manager := service_manager
    commissioning_date := commissioning_date
    service_date := service_date
    ddaus_mac := ddaus_mac
    ip_address := ip_address
    turbine_ip := ip_address
    gateway := gateway
    controller_type := controller_type
    das_server := das_server
    serial_number := serial_number
    firmware_version := firmware_version
    raw_text := some text }

/-! ### sif_filler.py: value projection, form filling, mapping report -/

/-- Python `dict.get` on an association list with unique keys. -/
def dGet (l : List (String × String)) (k : String) : Option String :=
  match l.find? (fun p => p.1 == k) with
  | some p => some p.2
  | none => none

/-- Python `d[k] = v`: replace the value in place if the key exists,
else append the pair. -/
def dInsert (l : List (String × String)) (k v : String) : List (String × String) :=
  if l.any (fun p => p.1 == k) then
    l.map (fun p => if p.1 == k then (k, v) else p)
  else l ++ [(k, v)]

/-- cms_to_sif_field_values of sif_filler.py: for each (cms_field,
sif_field) pair of the mapping in order, look the cms field up in the
record dictionary view and, when the value is truthy, write it under
the sif field name. -/
def cms_to_sif_field_values (cms : CmsReportData)
    (custom_mapping : Option (List (String × String))) : List (String × String) :=
  let mapping := match custom_mapping with | some m => m | none => CMS_TO_SIF_MAP
  let cms_dict := cms.to_dict
  mapping.foldl (fun sif_values pr =>
    match dGet cms_dict pr.1 with
    | some v => if v == "" then sif_values else dInsert sif_values pr.2 v
    | none => sif_values) []

/-- §4.3 of the specification, stated in its own words for comparison
with cms_to_sif_field_values: the projection holds exactly the pairs
(target_field, value) for the mapping entries whose attribute appears
in the record dictionary view with a non-empty value. -/
def projectionSpec (cms : CmsReportData) (mapping : List (String × String)) :
    List (String × String) :=
  mapping.filterMap (fun pr =>
    match dGet cms.to_dict pr.1 with
    | some v => if v == "" then none else some (pr.2, v)
    | none => none)

/-- One form field of a target template as pypdf reports it:
the /FT, /V and /DV entries of the field dictionary. -/
structure PdfField where
  ft : Option String := none
  v : Option String := none
  dv : Option String := none

/-- Result of pypdf `reader.get_fields()` for a template: none when
the document has no fillable form fields at all (Python None), some
association of field name to field data otherwise. -/
def PdfTemplate : Type := Option (List (String × PdfField))

/-- Modelled from the spec: pypdf `writer.update_page_form_field_values`
(pypdf is an external library, not part of the repository).  Per §4.5
it sets the named field value across all pages and signals a KeyError
when the template has no field of that name. -/
def update_form_field (fs : List (String × PdfField)) (name val : String) :
    Except Unit (List (String × PdfField)) :=
  if fs.any (fun p => p.1 == name) then
    .ok (fs.map (fun p => if p.1 == name then (p.1, { p.2 with v := some val }) else p))
  else .error ()

/-- fill_sif_form of sif_filler.py: fails with SifFillError when the
template has no form fields; otherwise writes each provided value,
catching per-field failures (warning printed, loop continues).  The
flatten branch of the source is an explicit no-op pass-through. -/
def fill_sif_form (tpl : PdfTemplate) (field_values : List (String × String))
    (_flatten : Bool) : Except String (List (String × PdfField)) :=
  match tpl with
  | none => .error "SIF template does not contain form fields (AcroForm)"
  | some fs =>
    .ok (field_values.foldl (fun acc pr =>
      match update_form_field acc pr.1 pr.2 with
      | .ok fs2 => fs2
      | .error _ => acc) fs)

/-- String insertion sort, for Python `sorted` on field names. -/
def insertStr (s : String) : List String → List String
  | [] => [s]
  | t :: rest => if s ≤ t then s :: t :: rest else t :: insertStr s rest

/-- Python `sorted` on a list of strings. -/
def sortStrs (l : List String) : List String := l.foldr insertStr []

/-- get_unfilled_fields of sif_filler.py: the sorted template field
names that received no value; an unreadable or field-less template
degrades to the empty list. -/
def get_unfilled_fields (tpl : PdfTemplate) (field_values : List (String × String)) :
    List String :=
  match tpl with
  | none => []
  | some fs =>
    sortStrs ((fs.map Prod.fst).filter (fun n => !field_values.any (fun p => p.1 == n)))

/-- One decimal place percentage, Python `f"{(m / t * 100):.1f}%"`
computed on the exact ratio with round-half-to-even. -/
def fmtPct (m t : Nat) : String :=
  let n := m * 1000
  let q := n / t
  let r := n % t
  let q := if 2 * r > t ∨ (2 * r = t ∧ q % 2 = 1) then q + 1 else q
  toString (q / 10) ++ "." ++ toString (q % 10) ++ "%"

/-- The statistic groups of a successful mapping report of
get_mapping_report (cms_extraction, sif_form, mapping, gaps, coverage). -/
structure MappingReportData where
  cms_total_fields : Nat
  cms_extracted_fields : List String
  sif_total_fields : Nat
  sif_field_names : List String
  total_mappings : Nat
  successfully_mapped : Nat
  mapping_details : List (String × String)
  unmapped_cms_fields : List String
  unfilled_sif_fields : List String
  cms_coverage : String
  sif_coverage : String

/-- Return value of get_mapping_report: the full statistic groups, or a
dictionary carrying only an error description. -/
inductive MappingReport where
  | report (d : MappingReportData)
  | errorReport (msg : String)

/-- Whether a mapping report carries only the error field. -/
def MappingReport.isErrorOnly : MappingReport → Bool
  | .report _ => false
  | .errorReport _ => true

/-- get_mapping_report of sif_filler.py.  Reading the template bytes
with pypdf can raise; the `tplRes` argument is that outcome, and the
outer `try` of the source turns any such failure into a report that
carries only an error string. -/
def get_mapping_report (cms : CmsReportData) (tplRes : Except String PdfTemplate)
    (custom_mapping : Option (List (String × String))) : MappingReport :=
  match tplRes with
  | .error e => .errorReport ("Could not generate mapping report: " ++ e)
  | .ok tpl =>
    let cms_fields := cms.to_dict
    let sif_fields := match tpl with | some fs => fs | none => []
    let sif_values := cms_to_sif_field_values cms custom_mapping
    let total_cms_fields := cms_fields.length
    let total_sif_fields := sif_fields.length
    let mapped_fields := sif_values.length
    let mapping := match custom_mapping with | some m => m | none => CMS_TO_SIF_MAP
    let unmapped_cms :=
      (cms_fields.map Prod.fst).filter (fun f => !mapping.any (fun p => p.1 == f))
    let unfilled_sif := get_unfilled_fields tpl sif_values
    .report
      { cms_total_fields := total_cms_fields
        cms_extracted_fields := cms_fields.map Prod.fst
        sif_total_fields := total_sif_fields
        sif_field_names := sif_fields.map Prod.fst
        total_mappings := mapping.length
        successfully_mapped := mapped_fields
        mapping_details := sif_values
        unmapped_cms_fields := unmapped_cms
        unfilled_sif_fields := unfilled_sif
        cms_coverage :=
          if total_cms_fields > 0 then fmtPct mapped_fields total_cms_fields else "N/A"
        sif_coverage :=
          if total_sif_fields > 0 then fmtPct mapped_fields total_sif_fields else "N/A" }

/-! ### pdf_loader.py: text extraction and form introspection -/

/-- get_form_fields of pdf_loader.py: a document without form fields
yields the empty table; otherwise each field is reported with its
type, value and default (each falling back as in the source). -/
def get_form_fields (tpl : PdfTemplate) : List (String × (String × String × String)) :=
  match tpl with
  | none => []
  | some fs =>
    fs.map (fun p =>
      (p.1, (match p.2.ft with | some t => t | none => "Unknown",
             match p.2.v with | some v => v | none => "",
             match p.2.dv with | some d => d | none => "")))

/-- A source document as pypdf exposes it to extract_pdf_text: the
per-page text extraction outcomes, none when extraction of that page
raises (the source appends the empty string for such a page). -/
structure PdfDoc where
  pages : List (Option String)

/-- extract_pdf_text of pdf_loader.py: join the page texts with line
breaks and flag the document for OCR iff the stripped text has fewer
than 100 characters. -/
def extract_pdf_text (d : PdfDoc) : String × Bool :=
  let text_chunks := d.pages.map (fun p => match p with | some t => t | none => "")
  let full_text := String.intercalate "\n" text_chunks
  let stripped_text := pyStrip full_text.data
  (full_text, decide (stripped_text.length < 100))

/-- extract_text_with_ocr of pdf_loader.py: the OCR placeholder. -/
def extract_text_with_ocr (_d : PdfDoc) : String :=
  "[OCR not yet implemented - text-based PDFs only]"

/-! ### main.py and main_script.py: orchestration -/

/-- process_cms_report of main.py: extract the text, attempt the OCR
fallback when the extractor flags sparse text (the placeholder makes
the fallback keep the original text), and parse. -/
def process_cms_report (d : PdfDoc) : CmsReportData :=
  let tb := extract_pdf_text d
  let text := tb.1
  let text :=
    if tb.2 then
      let ocr_text := extract_text_with_ocr d
      if !(ocr_text == "") && !pyStartsWith ocr_text "[OCR not yet implemented" then ocr_text
      else text
    else text
  parse_cms_report text

/-- The field values that convert_cms_to_sif of main.py hands to the
form filler: create_sif_from_cms passes the record returned by
process_cms_report unchanged into cms_to_sif_field_values. -/
def convert_cms_to_sif_values (d : PdfDoc)
    (custom_mapping : Option (List (String × String))) : List (String × String) :=
  cms_to_sif_field_values (process_cms_report d) custom_mapping

/-- The record produced by the extract_cms handler of main_script.py:
after parse_cms_report, `if not extracted_cms_data.service_date:` the
service date is set to `datetime.now().strftime('%m/%d/%Y')`; the
`today` argument stands for that current-date string. -/
def extract_cms_record (ocrText : String) (today : String) : CmsReportData :=
  let r := parse_cms_report ocrText
  if pyTruthy r.service_date then r else { r with service_date := some today }

/-! ### Shape predicates: dotted quad and colon-hex -/

/-- Split a character list at every dot. -/
def splitDots : List Char → List (List Char)
  | [] => [[]]
  | c :: rest =>
    if c = '.' then [] :: splitDots rest
    else
      match splitDots rest with
      | [] => [[c]]
      | g :: gs => (c :: g) :: gs

/-- A group of one to three decimal digits. -/
def digitGroup (l : List Char) : Bool :=
  decide (1 ≤ l.length) && decide (l.length ≤ 3) && l.all Char.isDigit

/-- A literal dotted quad: four dot-separated groups of 1-3 digits. -/
def isDottedQuad (s : String) : Bool :=
  match splitDots s.data with
  | [a, b, c, d] => digitGroup a && digitGroup b && digitGroup c && digitGroup d
  | _ => false

/-- A colon-hex string: non-empty, made only of hex digits and colons. -/
def isColonHex (s : String) : Bool :=
  !s.data.isEmpty && s.data.all hexColonChar

/-! ### Soundness of the matcher: what a capture can look like -/

/-- The bound `hi` of a class repetition allows `n` occurrences. -/
def hiOK : Option Nat → Nat → Prop
  | none, _ => True
  | some h, n => n ≤ h

/-- Declarative reading of a pattern item sequence: which character
lists it can consume. -/
inductive SeqMatch : List RItem → List Char → Prop where
  | nil : SeqMatch [] []
  | bol (items : List RItem) (s : List Char) :
      SeqMatch items s → SeqMatch (RItem.bol :: items) s
  | cls (c : Char → Bool) (lo : Nat) (hi : Option Nat) (items : List RItem)
      (chunk s : List Char) :
      lo ≤ chunk.length → hiOK hi chunk.length →
      (∀ x ∈ chunk, c x = true) →
      SeqMatch items s → SeqMatch (RItem.cls c lo hi :: items) (chunk ++ s)

theorem takeWhile_length_le (c : Char → Bool) :
    ∀ l : List Char, (l.takeWhile c).length ≤ l.length := by
  intro l
  induction l with
  | nil => simp
  | cons a t ih =>
    by_cases hca : c a = true
    · simp [List.takeWhile_cons, hca]
      exact ih
    · simp [List.takeWhile_cons, Bool.eq_false_iff.mpr hca]

theorem take_sat_of_le_takeWhile (c : Char → Bool) :
    ∀ (l : List Char) (k : Nat), k ≤ (l.takeWhile c).length →
      ∀ x ∈ l.take k, c x = true := by
  intro l
  induction l with
  | nil => intro k _ x hx; simp at hx
  | cons a t ih =>
    intro k hk x hx
    by_cases hca : c a = true
    · rw [List.takeWhile_cons, if_pos hca] at hk
      cases k with
      | zero => simp at hx
      | succ k' =>
        rw [List.take_succ_cons] at hx
        rcases List.mem_cons.mp hx with rfl | hx'
        · exact hca
        · exact ih k' (Nat.succ_le_succ_iff.mp hk) x hx'
    · rw [List.takeWhile_cons, if_neg hca] at hk
      simp at hk
      subst hk
      simp at hx

theorem matchSeq_sound {items : List RItem} :
    ∀ {prev : Option Char} {l : List Char} {pr : List Char × List Char},
      pr ∈ matchSeq items prev l → SeqMatch items pr.1 := by
  induction items with
  | nil =>
    intro prev l pr h
    simp only [matchSeq, List.mem_singleton] at h
    subst h
    exact SeqMatch.nil
  | cons item rest ih =>
    intro prev l pr h
    cases item with
    | bol =>
      simp only [matchSeq] at h
      split at h
      · exact SeqMatch.bol _ _ (ih h)
      · simp at h
    | cls c lo hi =>
      simp only [matchSeq] at h
      simp only [List.mem_flatMap, List.mem_filter, List.mem_reverse, List.mem_range,
        List.mem_map, decide_eq_true_eq] at h
      obtain ⟨k, ⟨hkrange, hklo⟩, q, hq, hpr⟩ := h
      have hkcap : k ≤ capBound hi (l.takeWhile c).length := Nat.lt_succ_iff.mp hkrange
      have hkmax : k ≤ (l.takeWhile c).length := by
        cases hi with
        | none => exact hkcap
        | some hh => exact le_trans hkcap (Nat.min_le_right _ _)
      have hkl : k ≤ l.length := le_trans hkmax (takeWhile_length_le c l)
      have hlen : (l.take k).length = k := by
        rw [List.length_take]
        exact Nat.min_eq_left hkl
      have hall : ∀ x ∈ l.take k, c x = true := take_sat_of_le_takeWhile c l k hkmax
      have hlo2 : lo ≤ (l.take k).length := by rw [hlen]; exact hklo
      have hhi : hiOK hi (l.take k).length := by
        cases hi with
        | none => trivial
        | some hh =>
          rw [hiOK, hlen]
          exact le_trans hkcap (Nat.min_le_left _ _)
      rw [← hpr]
      exact SeqMatch.cls c lo hi rest (l.take k) q.1 hlo2 hhi hall (ih hq)

theorem firstSome_sound {α β : Type} {f : α → Option β} :
    ∀ {xs : List α} {b : β}, firstSome f xs = some b → ∃ a ∈ xs, f a = some b := by
  intro xs
  induction xs with
  | nil => intro b h; simp [firstSome] at h
  | cons a rest ih =>
    intro b h
    rw [firstSome] at h
    cases hfa : f a with
    | some b2 =>
      rw [hfa] at h
      dsimp only at h
      exact ⟨a, List.mem_cons_self a rest, by rw [hfa, h]⟩
    | none =>
      rw [hfa] at h
      dsimp only at h
      obtain ⟨a2, ha2, hf2⟩ := ih h
      exact ⟨a2, List.mem_cons_of_mem a ha2, hf2⟩

theorem matchPatAt_capMatch {p : RPat} {prev : Option Char} {l : List Char}
    {r : List Char × List Char} (h : matchPatAt p prev l = some r) :
    SeqMatch p.cap r.1 := by
  obtain ⟨pre, _, h2⟩ := firstSome_sound h
  obtain ⟨pr, _, h3⟩ := firstSome_sound h2
  dsimp only at h3
  rcases hms : matchSeq p.cap
      (match pr.1.getLast? with | some ch => some ch | none => prev) pr.2 with _ | ⟨q, qs⟩
  · rw [hms] at h3; simp at h3
  · rw [hms] at h3
    simp only [Option.some.injEq] at h3
    subst h3
    exact matchSeq_sound (by rw [hms]; exact List.mem_cons_self q qs)

theorem searchPat_capMatch {p : RPat} :
    ∀ {prev : Option Char} {l : List Char} {r : List Char × List Char},
      searchPat p prev l = some r → SeqMatch p.cap r.1 := by
  intro prev l
  induction l generalizing prev with
  | nil =>
    intro r h
    rw [searchPat] at h
    cases hm : matchPatAt p prev [] with
    | some r2 => rw [hm] at h; simp only [Option.some.injEq] at h; exact h ▸ matchPatAt_capMatch hm
    | none => rw [hm] at h; simp at h
  | cons c rest ih =>
    intro r h
    rw [searchPat] at h
    cases hm : matchPatAt p prev (c :: rest) with
    | some r2 => rw [hm] at h; simp only [Option.some.injEq] at h; exact h ▸ matchPatAt_capMatch hm
    | none => rw [hm] at h; exact ih h

theorem reFind_capMatch {p : RPat} {text : String} {v : String}
    (h : reFind p text = some v) :
    ∃ s : List Char, SeqMatch p.cap s ∧ v = String.mk (pyStrip s) := by
  unfold reFind at h
  cases hs : searchPat p none text.data with
  | none => rw [hs] at h; simp at h
  | some r =>
    rw [hs] at h
    simp only [Option.some.injEq] at h
    exact ⟨r.1, searchPat_capMatch hs, h.symm⟩

/-! ### Shape lemmas -/

theorem splitDots_ne_nil : ∀ l : List Char, splitDots l ≠ [] := by
  intro l
  cases l with
  | nil => simp [splitDots]
  | cons c rest =>
    rw [splitDots]
    split
    · simp
    · split <;> simp

theorem splitDots_no_dot : ∀ l : List Char, (∀ x ∈ l, x ≠ '.') → splitDots l = [l] := by
  intro l
  induction l with
  | nil => intro _; rfl
  | cons c rest ih =>
    intro hnd
    rw [splitDots, if_neg (hnd c (List.mem_cons_self c rest))]
    rw [ih (fun x hx => hnd x (List.mem_cons_of_mem c hx))]

theorem splitDots_append : ∀ (a r : List Char), (∀ x ∈ a, x ≠ '.') →
    splitDots (a ++ '.' :: r) = a :: splitDots r := by
  intro a
  induction a with
  | nil => intro r _; simp [splitDots]
  | cons c t ih =>
    intro r hnd
    rw [List.cons_append, splitDots, if_neg (hnd c (List.mem_cons_self c t))]
    rw [ih r (fun x hx => hnd x (List.mem_cons_of_mem c hx))]

theorem dropWhile_eq_self_of_all (p : Char → Bool) (l : List Char)
    (h : ∀ x ∈ l, p x = false) : l.dropWhile p = l := by
  cases l with
  | nil => rfl
  | cons a t =>
    rw [List.dropWhile_cons, h a (List.mem_cons_self a t)]
    simp

theorem pyStrip_of_no_ws {l : List Char} (h : ∀ x ∈ l, pyWsChar x = false) :
    pyStrip l = l := by
  unfold pyStrip
  rw [dropWhile_eq_self_of_all pyWsChar l h]
  rw [dropWhile_eq_self_of_all pyWsChar l.reverse (fun x hx => h x (List.mem_reverse.mp hx))]
  exact List.reverse_reverse l

theorem pyWs_cases {x : Char} (h : pyWsChar x = true) :
    x = ' ' ∨ x = '\t' ∨ x = '\n' ∨ x = '\r' ∨ x = '\x0b' ∨ x = '\x0c' := by
  simp only [pyWsChar, Bool.or_eq_true, beq_iff_eq] at h
  tauto

theorem isDigit_not_ws {x : Char} (h : x.isDigit = true) : pyWsChar x = false := by
  cases hw : pyWsChar x
  · rfl
  · exfalso
    rcases pyWs_cases hw with rfl | rfl | rfl | rfl | rfl | rfl <;> exact absurd h (by decide)

theorem dot_not_ws {x : Char} (h : dotChar x = true) : pyWsChar x = false := by
  have hx : x = '.' := by simpa [dotChar] using h
  subst hx
  decide

theorem hexColon_not_ws {x : Char} (h : hexColonChar x = true) : pyWsChar x = false := by
  cases hw : pyWsChar x
  · rfl
  · exfalso
    rcases pyWs_cases hw with rfl | rfl | rfl | rfl | rfl | rfl <;> exact absurd h (by decide)

theorem isDigit_ne_dot {x : Char} (h : x.isDigit = true) : x ≠ '.' := by
  intro hx
  subst hx
  exact absurd h (by decide)

theorem dot_chunk_eq {p : List Char} (hlo : 1 ≤ p.length) (hhi : hiOK (some 1) p.length)
    (hall : ∀ x ∈ p, dotChar x = true) : p = ['.'] := by
  have hlen : p.length = 1 := Nat.le_antisymm hhi hlo
  cases p with
  | nil => simp at hlen
  | cons c t =>
    cases t with
    | nil =>
      have hc : dotChar c = true := hall c (List.mem_cons_self c [])
      have : c = '.' := by simpa [dotChar] using hc
      rw [this]
    | cons d t2 => simp at hlen

theorem data_mk (l : List Char) : (String.mk l).data = l := rfl

theorem digitGroup_of_bounds {d : List Char} (hlo : 1 ≤ d.length)
    (hhi : hiOK (some 3) d.length) (hall : ∀ x ∈ d, Char.isDigit x = true) :
    digitGroup d = true := by
  have h3 : d.length ≤ 3 := hhi
  unfold digitGroup
  rw [List.all_eq_true.mpr hall]
  simp [hlo, h3]

/-- Any capture of the dotted-quad group is a dotted quad, and contains
no whitespace (so stripping leaves it unchanged). -/
theorem quadCap_shape {s : List Char} (h : SeqMatch quadCap s) :
    (∀ x ∈ s, pyWsChar x = false) ∧ isDottedQuad (String.mk s) = true := by
  simp only [quadCap, rOne] at h
  rcases h with _ | _ | ⟨_, _, _, _, d1, s1, hlo1, hhi1, hall1, h⟩
  rcases h with _ | _ | ⟨_, _, _, _, p1, s2, plo1, phi1, pall1, h⟩
  rcases h with _ | _ | ⟨_, _, _, _, d2, s3, hlo2, hhi2, hall2, h⟩
  rcases h with _ | _ | ⟨_, _, _, _, p2, s4, plo2, phi2, pall2, h⟩
  rcases h with _ | _ | ⟨_, _, _, _, d3, s5, hlo3, hhi3, hall3, h⟩
  rcases h with _ | _ | ⟨_, _, _, _, p3, s6, plo3, phi3, pall3, h⟩
  rcases h with _ | _ | ⟨_, _, _, _, d4, s7, hlo4, hhi4, hall4, h⟩
  cases h
  rw [dot_chunk_eq plo1 phi1 pall1, dot_chunk_eq plo2 phi2 pall2, dot_chunk_eq plo3 phi3 pall3]
  have hnd1 : ∀ x ∈ d1, x ≠ '.' := fun x hx => isDigit_ne_dot (hall1 x hx)
  have hnd2 : ∀ x ∈ d2, x ≠ '.' := fun x hx => isDigit_ne_dot (hall2 x hx)
  have hnd3 : ∀ x ∈ d3, x ≠ '.' := fun x hx => isDigit_ne_dot (hall3 x hx)
  have hnd4 : ∀ x ∈ d4, x ≠ '.' := fun x hx => isDigit_ne_dot (hall4 x hx)
  constructor
  · intro x hx
    simp only [List.append_nil, List.mem_append, List.mem_cons,
      List.not_mem_nil, or_false] at hx
    rcases hx with h1 | h1 | h1 | h1 | h1 | h1 | h1
    · exact isDigit_not_ws (hall1 x h1)
    · exact dot_not_ws (by rw [h1]; rfl)
    · exact isDigit_not_ws (hall2 x h1)
    · exact dot_not_ws (by rw [h1]; rfl)
    · exact isDigit_not_ws (hall3 x h1)
    · exact dot_not_ws (by rw [h1]; rfl)
    · exact isDigit_not_ws (hall4 x h1)
  · simp only [isDottedQuad, data_mk, List.singleton_append, List.append_nil]
    rw [splitDots_append d1 _ hnd1, splitDots_append d2 _ hnd2, splitDots_append d3 _ hnd3,
      splitDots_no_dot d4 hnd4]
    dsimp only
    rw [digitGroup_of_bounds hlo1 hhi1 hall1, digitGroup_of_bounds hlo2 hhi2 hall2,
      digitGroup_of_bounds hlo3 hhi3 hall3, digitGroup_of_bounds hlo4 hhi4 hall4]
    rfl

/-- Any capture of the `[A-F0-9:]+` group is non-empty colon-hex and
contains no whitespace. -/
theorem macCap_shape {s : List Char} (h : SeqMatch [rPlus hexColonChar] s) :
    (∀ x ∈ s, pyWsChar x = false) ∧ isColonHex (String.mk s) = true := by
  simp only [rPlus] at h
  rcases h with _ | _ | ⟨_, _, _, _, chunk, s1, hlo, _, hall, h⟩
  cases h
  rw [List.append_nil]
  refine ⟨fun x hx => hexColon_not_ws (hall x hx), ?_⟩
  simp only [isColonHex, data_mk, Bool.and_eq_true]
  constructor
  · cases chunk with
    | nil => simp at hlo
    | cons a t => simp
  · exact List.all_eq_true.mpr hall

/-- A value assigned through a pattern whose capture group is the
dotted-quad group is a literal dotted quad. -/
theorem reFind_quad {p : RPat} (hp : p.cap = quadCap) {text v : String}
    (h : reFind p text = some v) : isDottedQuad v = true := by
  obtain ⟨s, hm, rfl⟩ := reFind_capMatch h
  rw [hp] at hm
  obtain ⟨hws, hquad⟩ := quadCap_shape hm
  rw [pyStrip_of_no_ws hws]
  exact hquad

/-- A value assigned through the MAC pattern is non-empty colon-hex. -/
theorem reFind_colonHex {p : RPat} (hp : p.cap = [rPlus hexColonChar]) {text v : String}
    (h : reFind p text = some v) : isColonHex v = true := by
  obtain ⟨s, hm, rfl⟩ := reFind_capMatch h
  rw [hp] at hm
  obtain ⟨hws, hhex⟩ := macCap_shape hm
  rw [pyStrip_of_no_ws hws]
  exact hhex

/-! ### The extraction fields in terms of the individual finds -/

theorem parse_ip_eq (text : String) :
    (parse_cms_report text).ip_address = reFind ipPat text := rfl

theorem parse_turbine_ip_eq (text : String) :
    (parse_cms_report text).turbine_ip = reFind ipPat text := rfl

theorem parse_gateway_eq (text : String) :
    (parse_cms_report text).gateway = reFind gatewayPat text := rfl

theorem parse_mac_eq (text : String) :
    (parse_cms_report text).ddaus_mac = reFind macPat text := rfl

theorem parse_service_date_eq (text : String) :
    (parse_cms_report text).service_date = reFind serviceDatePat text := rfl

/-- The two-step Python fallback (conditional reassignment followed by
`or` in the constructor) collapses to a single `or`. -/
theorem pyOr_update (t n : Option String) :
    pyOr (if pyTruthy n && !pyTruthy t then n else t) n = pyOr t n := by
  cases ht : pyTruthy t <;> cases hn : pyTruthy n <;> simp [pyOr, ht, hn]

theorem parse_turbine_number_eq (text : String) :
    (parse_cms_report text).turbine_number =
      pyOr (reFind turbineNumberPat text) (reFind namePat text) := by
  have h : (parse_cms_report text).turbine_number =
      pyOr (if pyTruthy (reFind namePat text) && !pyTruthy (reFind turbineNumberPat text)
            then reFind namePat text else reFind turbineNumberPat text)
        (reFind namePat text) := rfl
  rw [h, pyOr_update]

theorem parse_wind_farm_eq (text : String) :
    (parse_cms_report text).wind_farm =
      pyOr (reFind windFarmPat text) (reFind numberPat text) := by
  have h : (parse_cms_report text).wind_farm =
      pyOr (if pyTruthy (reFind numberPat text) && !pyTruthy (reFind windFarmPat text)
            then reFind numberPat text else reFind windFarmPat text)
        (reFind numberPat text) := rfl
  rw [h, pyOr_update]

theorem pyOr_of_truthy {t : Option String} (n : Option String) (h : pyTruthy t = true) :
    pyOr t n = t := by
  simp [pyOr, h]

/-! ### Projection lemmas -/

theorem dInsert_fresh {l : List (String × String)} {k : String} (v : String)
    (h : l.any (fun p => p.1 == k) = false) : dInsert l k v = l ++ [(k, v)] := by
  unfold dInsert
  rw [h]
  simp

/-- The fold of cms_to_sif_field_values appends exactly the projected
pairs when no produced target key collides with an existing one. -/
theorem proj_foldl (cms : CmsReportData) :
    ∀ (m acc : List (String × String)),
      (m.map Prod.snd).Nodup →
      (∀ sf ∈ m.map Prod.snd, acc.any (fun p => p.1 == sf) = false) →
      m.foldl (fun sif_values pr =>
        match dGet cms.to_dict pr.1 with
        | some v => if v == "" then sif_values else dInsert sif_values pr.2 v
        | none => sif_values) acc = acc ++ projectionSpec cms m := by
  intro m
  induction m with
  | nil => intro acc _ _; simp [projectionSpec]
  | cons pr rest ih =>
    intro acc hnd hfresh
    have hnd' : (rest.map Prod.snd).Nodup := by
      rw [List.map_cons] at hnd
      exact List.Nodup.of_cons hnd
    have hpr2 : pr.2 ∉ rest.map Prod.snd := by
      rw [List.map_cons] at hnd
      exact (List.nodup_cons.mp hnd).1
    rw [List.foldl_cons]
    have hspec : projectionSpec cms (pr :: rest) =
        (match dGet cms.to_dict pr.1 with
         | some v => if v == "" then none else some (pr.2, v)
         | none => none).toList ++ projectionSpec cms rest := by
      unfold projectionSpec
      rw [List.filterMap_cons]
      cases dGet cms.to_dict pr.1 with
      | none => simp
      | some v =>
        dsimp only
        by_cases hv : (v == "") = true
        · rw [if_pos hv]
          simp
        · rw [if_neg hv]
          simp
    cases hget : dGet cms.to_dict pr.1 with
    | none =>
      dsimp only
      rw [hspec, hget]
      dsimp only [Option.toList]
      rw [List.nil_append]
      exact ih acc hnd' (fun sf hsf => hfresh sf (List.mem_cons_of_mem _ hsf))
    | some v =>
      dsimp only
      by_cases hv : (v == "") = true
      · rw [if_pos hv, hspec, hget]
        dsimp only
        rw [if_pos hv]
        dsimp only [Option.toList]
        rw [List.nil_append]
        exact ih acc hnd' (fun sf hsf => hfresh sf (List.mem_cons_of_mem _ hsf))
      · rw [if_neg hv, hspec, hget]
        dsimp only
        rw [if_neg hv]
        dsimp only [Option.toList]
        have hfr : acc.any (fun p => p.1 == pr.2) = false :=
          hfresh pr.2 (by rw [List.map_cons]; exact List.mem_cons_self _ _)
        rw [dInsert_fresh v hfr]
        have hfresh' : ∀ sf ∈ rest.map Prod.snd,
            (acc ++ [(pr.2, v)]).any (fun p => p.1 == sf) = false := by
          intro sf hsf
          rw [List.any_append]
          rw [hfresh sf (List.mem_cons_of_mem _ hsf)]
          have hne : pr.2 ≠ sf := fun he => hpr2 (he ▸ hsf)
          simp [hne]
        rw [ih (acc ++ [(pr.2, v)]) hnd' hfresh']
        rw [List.append_assoc]

/-! ### to_dict lemmas -/

theorem to_dict_key_ne_raw (r : CmsReportData) :
    ∀ p ∈ r.to_dict, (p.1 == "raw_text") = false := by
  intro p hp
  unfold CmsReportData.to_dict at hp
  obtain ⟨a, _, hfa⟩ := List.mem_filterMap.mp hp
  cases ha2 : a.2 with
  | none => rw [ha2] at hfa; simp at hfa
  | some v =>
    rw [ha2] at hfa
    dsimp only at hfa
    by_cases hk : (a.1 == "raw_text") = true
    · rw [if_pos hk] at hfa; simp at hfa
    · rw [if_neg hk] at hfa
      simp only [Option.some.injEq] at hfa
      rw [← hfa]
      exact Bool.eq_false_iff.mpr hk

theorem to_dict_raw_none (r : CmsReportData) :
    CmsReportData.to_dict { r with raw_text := none } = r.to_dict := by
  have h1 : ({ r with raw_text := none } : CmsReportData).attrs =
      [("wind_farm", r.wind_farm),
       ("turbine_number", r.turbine_number),
       ("turbine_type", r.turbine_type),
       ("location", r.location),
       ("service_life_year", r.service_life_year),
       ("technicians", r.technicians),
       ("service_manager", r.service_manager),
       ("commissioning_date", r.commissioning_date),
       ("service_date", r.service_date),
       ("ddaus_mac", r.ddaus_mac),
       ("ip_address", r.ip_address),
       ("turbine_ip", r.turbine_ip),
       ("gateway", r.gateway),
       ("controller_type", r.controller_type),
       ("das_server", r.das_server),
       ("serial_number", r.serial_number),
       ("firmware_version", r.firmware_version)] ++
      [("raw_text", (none : Option String))] := rfl
  have h2 : r.attrs =
      [("wind_farm", r.wind_farm),
       ("turbine_number", r.turbine_number),
       ("turbine_type", r.turbine_type),
       ("location", r.location),
       ("service_life_year", r.service_life_year),
       ("technicians", r.technicians),
       ("service_manager", r.service_manager),
       ("commissioning_date", r.commissioning_date),
       ("service_date", r.service_date),
       ("ddaus_mac", r.ddaus_mac),
       ("ip_address", r.ip_address),
       ("turbine_ip", r.turbine_ip),
       ("gateway", r.gateway),
       ("controller_type", r.controller_type),
       ("das_server", r.das_server),
       ("serial_number", r.serial_number),
       ("firmware_version", r.firmware_version)] ++
      [("raw_text", r.raw_text)] := rfl
  unfold CmsReportData.to_dict
  rw [h1, h2, List.filterMap_append, List.filterMap_append]
  congr 1
  cases r.raw_text <;> rfl

theorem values_ignore_raw (r : CmsReportData) (custom : Option (List (String × String))) :
    cms_to_sif_field_values r custom =
      cms_to_sif_field_values { r with raw_text := none } custom := by
  unfold cms_to_sif_field_values
  rw [to_dict_raw_none]

/-! ### The claims -/

/-- Claim C1, counterexample: the mapping key "gearbox_info" is a key of
CMS_TO_SIF_MAP but is not a declared attribute of CmsReportData, so not
every key of the default mapping names a real record attribute. -/
theorem claimC1_counterexample :
    "gearbox_info" ∈ CMS_TO_SIF_MAP.map Prod.fst ∧ "gearbox_info" ∉ cmsAttrNames := by
  decide

/-- Claim C1 as amended: every key of CMS_TO_SIF_MAP either names a
declared CmsReportData attribute or is one of the six equipment-detail
keys (gearbox_info, generator_info, main_bearing_info, hub_height,
owner, service_car), and none of those six is a record attribute. -/
theorem claimC1_amended :
    (CMS_TO_SIF_MAP.map Prod.fst).all
      (fun k => decide (k ∈ cmsAttrNames) ||
        decide (k ∈ ["gearbox_info", "generator_info", "main_bearing_info",
                     "hub_height", "owner", "service_car"])) = true ∧
    (["gearbox_info", "generator_info", "main_bearing_info",
      "hub_height", "owner", "service_car"] : List String).all
      (fun k => !decide (k ∈ cmsAttrNames)) = true := by
  decide

/-- Claim C2, counterexample: on a document whose extracted text is
"hello", extraction leaves the service date absent, yet the record the
conversion entry point passes to value projection still has no service
date and the projected values contain no "Date" entry, so
convert_cms_to_sif performs no default-date fill. -/
theorem claimC2_counterexample :
    (parse_cms_report "hello").service_date = none ∧
    (process_cms_report ⟨[some "hello"]⟩).service_date = none ∧
    convert_cms_to_sif_values ⟨[some "hello"]⟩ none = [] := by
  decide

/-- Claim C2 as amended: the default service-date fill is not part of
convert_cms_to_sif; it lives in the extract_cms handler of
main_script.py, which after extraction leaves a truthy extracted date
untouched and otherwise sets exactly the service-date attribute to the
current-date string, leaving every other attribute unchanged. -/
theorem claimC2_amended (text today : String) :
    (pyTruthy (parse_cms_report text).service_date = true →
      extract_cms_record text today = parse_cms_report text) ∧
    (pyTruthy (parse_cms_report text).service_date = false →
      extract_cms_record text today =
        { parse_cms_report text with service_date := some today }) := by
  constructor
  · intro h
    simp [extract_cms_record, h]
  · intro h
    simp [extract_cms_record, h]

/-- Witness for claim C2: a text with an extracted service date is
returned unchanged by the extract_cms default-fill step. -/
theorem claimC2_witness :
    extract_cms_record "Service Date: 01/02/2020" "09/10/2021" =
      parse_cms_report "Service Date: 01/02/2020" :=
  (claimC2_amended "Service Date: 01/02/2020" "09/10/2021").1 (by decide)

/-- Claim C3: every value the extraction engine assigns to the
IP-address, gateway or unit-IP attribute is a literal dotted quad
(four dot-separated groups of 1 to 3 digits), and every value it
assigns to the MAC attribute is non-empty colon-hex; ill-shaped
candidates are never coerced, the attribute just stays absent. -/
theorem claimC3 (text : String) :
    (∀ v, (parse_cms_report text).ip_address = some v → isDottedQuad v = true) ∧
    (∀ v, (parse_cms_report text).gateway = some v → isDottedQuad v = true) ∧
    (∀ v, (parse_cms_report text).turbine_ip = some v → isDottedQuad v = true) ∧
    (∀ v, (parse_cms_report text).ddaus_mac = some v → isColonHex v = true) := by
  refine ⟨?_, ?_, ?_, ?_⟩
  · intro v hv
    rw [parse_ip_eq] at hv
    exact reFind_quad rfl hv
  · intro v hv
    rw [parse_gateway_eq] at hv
    exact reFind_quad rfl hv
  · intro v hv
    rw [parse_turbine_ip_eq] at hv
    exact reFind_quad rfl hv
  · intro v hv
    rw [parse_mac_eq] at hv
    exact reFind_colonHex rfl hv

/-- Witness for claim C3 at a concrete report text. -/
theorem claimC3_witness :
    isDottedQuad "10.0.0.1" = true ∧ isDottedQuad "1.2.3.4" = true ∧
    isColonHex "0A:1B" = true :=
  ⟨(claimC3 "IP: 10.0.0.1\nGateway: 1.2.3.4\nMAC: 0A:1B").1 "10.0.0.1" (by decide),
   (claimC3 "IP: 10.0.0.1\nGateway: 1.2.3.4\nMAC: 0A:1B").2.1 "1.2.3.4" (by decide),
   (claimC3 "IP: 10.0.0.1\nGateway: 1.2.3.4\nMAC: 0A:1B").2.2.2 "0A:1B" (by decide)⟩

/-- Claim C4: the cross-attribute fallback is asymmetric and forward
only: the unit-number attribute is the dedicated turbine-number find
falling back to the generic Name find, the farm attribute is the
dedicated wind-farm find falling back to the generic Number find (so a
Name match never supplies the farm and a Number match never supplies
the unit number), a truthy dedicated match is never overridden, and on
the text "Name: T-004", which has no turbine-number line, extraction
yields unit number "T-004". -/
theorem claimC4 :
    (∀ text : String,
      (parse_cms_report text).turbine_number =
        pyOr (reFind turbineNumberPat text) (reFind namePat text) ∧
      (parse_cms_report text).wind_farm =
        pyOr (reFind windFarmPat text) (reFind numberPat text) ∧
      (pyTruthy (reFind turbineNumberPat text) = true →
        (parse_cms_report text).turbine_number = reFind turbineNumberPat text) ∧
      (pyTruthy (reFind windFarmPat text) = true →
        (parse_cms_report text).wind_farm = reFind windFarmPat text)) ∧
    reFind turbineNumberPat "Name: T-004" = none ∧
    (parse_cms_report "Name: T-004").turbine_number = some "T-004" := by
  refine ⟨fun text => ⟨parse_turbine_number_eq text, parse_wind_farm_eq text, ?_, ?_⟩,
    by decide, by decide⟩
  · intro h
    rw [parse_turbine_number_eq, pyOr_of_truthy _ h]
  · intro h
    rw [parse_wind_farm_eq, pyOr_of_truthy _ h]

/-- Witness for claim C4: a truthy dedicated turbine-number match is
kept even though a Name line is present. -/
theorem claimC4_witness :
    (parse_cms_report "Turbine Number: T7\nName: X9").turbine_number =
      reFind turbineNumberPat "Turbine Number: T7\nName: X9" :=
  (claimC4.1 "Turbine Number: T7\nName: X9").2.2.1 (by decide)

/-- Claim C5, counterexample: with a custom mapping whose target side
repeats a field name, the projection does not contain one pair per
present mapping entry (the last writer wins), refuting the claim as
stated for every mapping. -/
theorem claimC5_counterexample :
    cms_to_sif_field_values { wind_farm := some "a", turbine_number := some "b" }
        (some [("wind_farm", "X"), ("turbine_number", "X")]) ≠
      projectionSpec { wind_farm := some "a", turbine_number := some "b" }
        [("wind_farm", "X"), ("turbine_number", "X")] := by
  decide

/-- Claim C5 as amended: when the mapping target side is duplicate-free
the projection contains exactly the pairs (target_field, value) for the
mapping entries whose attribute appears in the record dictionary view
(which omits raw_text) with a non-empty value, values verbatim, and an
empty mapping projects to the empty map. -/
theorem claimC5_amended (cms : CmsReportData) (m : List (String × String))
    (h : (m.map Prod.snd).Nodup) :
    cms_to_sif_field_values cms (some m) = projectionSpec cms m ∧
    cms_to_sif_field_values cms (some []) = [] := by
  refine ⟨?_, rfl⟩
  have h0 : cms_to_sif_field_values cms (some m) =
      m.foldl (fun sif_values pr =>
        match dGet cms.to_dict pr.1 with
        | some v => if v == "" then sif_values else dInsert sif_values pr.2 v
        | none => sif_values) [] := rfl
  rw [h0, proj_foldl cms m [] h (fun sf _ => rfl)]
  exact List.nil_append _

/-- Witness for claim C5 at a concrete record and duplicate-free
mapping. -/
theorem claimC5_witness :
    cms_to_sif_field_values { wind_farm := some "WF9" }
        (some [("wind_farm", "A"), ("turbine_number", "B")]) =
      projectionSpec { wind_farm := some "WF9" }
        [("wind_farm", "A"), ("turbine_number", "B")] :=
  (claimC5_amended { wind_farm := some "WF9" }
    [("wind_farm", "A"), ("turbine_number", "B")] (by decide)).1

/-- Claim C6: the raw full-text diagnostic field never appears as a key
of the record dictionary view, and the value projection is insensitive
to it, for any caller-supplied mapping (so no projected value can come
from raw_text, even when the mapping contains the key "raw_text"). -/
theorem claimC6 (r : CmsReportData) (custom : Option (List (String × String))) :
    (r.to_dict.map Prod.fst).all (fun k => !(k == "raw_text")) = true ∧
    cms_to_sif_field_values r custom =
      cms_to_sif_field_values { r with raw_text := none } custom := by
  constructor
  · apply List.all_eq_true.mpr
    intro k hk
    obtain ⟨p, hp, rfl⟩ := List.mem_map.mp hk
    rw [to_dict_key_ne_raw r p hp]
    rfl
  · exact values_ignore_raw r custom

/-- Claim C7: filling a template that has form fields never fails,
whatever the value map contains (a missing field name or other
per-field failure is skipped and filling continues, as the concrete
instance with the absent field "C" shows); filling a template with no
form fields at all raises the SifFillError kind; and introspection
alone on such a template succeeds with an empty field table. -/
theorem claimC7 (fs : List (String × PdfField)) (vals : List (String × String)) (fl : Bool) :
    (∃ out, fill_sif_form (some fs) vals fl = .ok out) ∧
    fill_sif_form (none : PdfTemplate) vals fl =
      .error "SIF template does not contain form fields (AcroForm)" ∧
    get_form_fields (none : PdfTemplate) = [] ∧
    fill_sif_form (some [("A", {})]) [("A", "x"), ("C", "y")] false =
      .ok [("A", { v := some "x" })] :=
  ⟨⟨_, rfl⟩, rfl, rfl, rfl⟩

/-- Claim C8: the mapping reporter never raises; it is total, a failure
of the internal template read degrades to a report carrying only the
error description, and a successful read always yields the full
statistic groups. -/
theorem claimC8 (cms : CmsReportData) (m : Option (List (String × String)))
    (e : String) (tpl : PdfTemplate) :
    get_mapping_report cms (.error e) m =
      .errorReport ("Could not generate mapping report: " ++ e) ∧
    (get_mapping_report cms (.ok tpl) m).isErrorOnly = false :=
  ⟨rfl, rfl⟩

/-- Claim C9: the OCR-trigger flag of the text extractor equals the
comparison (stripped text length < 100); in particular it is false at
exactly 100 characters. -/
theorem claimC9 (d : PdfDoc) :
    ((extract_pdf_text d).2 = true ↔
      (pyStrip (extract_pdf_text d).1.data).length < 100) ∧
    ((pyStrip (extract_pdf_text d).1.data).length = 100 →
      (extract_pdf_text d).2 = false) := by
  have h2 : (extract_pdf_text d).2 =
      decide ((pyStrip (extract_pdf_text d).1.data).length < 100) := rfl
  constructor
  · rw [h2]
    exact decide_eq_true_iff
  · intro h
    rw [h2, h]
    rfl

/-- Witness for claim C9: a one-page document with exactly 100
non-whitespace characters is not flagged for OCR. -/
theorem claimC9_witness :
    (extract_pdf_text ⟨[some "aaaaaaaaaaaaaaaaaaaaaaaaaaaaaaaaaaaaaaaaaaaaaaaaaaaaaaaaaaaaaaaaaaaaaaaaaaaaaaaaaaaaaaaaaaaaaaaaaaaa"]⟩).2 = false :=
  (claimC9 ⟨[some "aaaaaaaaaaaaaaaaaaaaaaaaaaaaaaaaaaaaaaaaaaaaaaaaaaaaaaaaaaaaaaaaaaaaaaaaaaaaaaaaaaaaaaaaaaaaaaaaaaaa"]⟩).2 (by decide)

/-- Claim C10: the unit-IP attribute of every extracted record equals
the network-IP attribute (both are the single IP match), and when
present the shared value is a literal dotted quad. -/
theorem claimC10 (text : String) :
    (parse_cms_report text).turbine_ip = (parse_cms_report text).ip_address ∧
    (∀ v, (parse_cms_report text).turbine_ip = some v → isDottedQuad v = true) := by
  constructor
  · rfl
  · intro v hv
    rw [parse_turbine_ip_eq] at hv
    exact reFind_quad rfl hv

/-- Witness for claim C10 at a concrete report text. -/
theorem claimC10_witness :
    (parse_cms_report "IP: 9.8.7.6").turbine_ip =
      (parse_cms_report "IP: 9.8.7.6").ip_address ∧
    isDottedQuad "9.8.7.6" = true :=
  ⟨(claimC10 "IP: 9.8.7.6").1, (claimC10 "IP: 9.8.7.6").2 "9.8.7.6" (by decide)⟩

/-!
### Concrete cross-checks of the embedding

Each of the following evaluations was checked against the behavior of
the Python re module on the source patterns, including the greedy
`[:\s]+` separator crossing line breaks and captures that strip to the
empty string.
-/

example : (parse_cms_report "Name: T-004").turbine_number = some "T-004" := by decide
example : (parse_cms_report "hello").service_date = none := by decide
example : (parse_cms_report "IP: 10.0.0.1").turbine_ip = some "10.0.0.1" := by decide
example : convert_cms_to_sif_values ⟨[some "hello"]⟩ none = [] := by decide
example : reFind ipPat "IP: 10.0.0.1" = some "10.0.0.1" := by decide
example : reFind namePat "Name: T-004" = some "T-004" := by decide
example : reFind turbineNumberPat "Name: T-004" = none := by decide
example : reFind macPat "x MAC: 0A:1B " = some "0A:1B" := by decide
example : reFindAllStripped technicianPat "Tech: John Doe, Tech: Ann Lee" = ["John Doe", "Ann Lee"] := by decide
example : reFind windFarmPat "wind farm: North Ridge " = some "North Ridge" := by decide
example : reFind gatewayPat "Gateway: 1234.5.6.7.8" = none := by decide
example : reFind gatewayPat "Gateway: 10.20.30.40" = some "10.20.30.40" := by decide
example : reFind windFarmPat "Wind Farm:   \nNumber: 42" = some "Number: 42" := by decide
example : reFind windFarmPat "Wind Farm:   " = some "" := by decide
example : reFind namePat "Name:   " = some "" := by decide
example : reFind turbineNumberPat "wtg#T7" = some "T7" := by decide
example : reFind serviceDatePat "Date: 01/02/2020" = some "01/02/2020" := by decide
example : reFind firmwareVersionPat "firmware 1.2.3" = some "1.2.3" := by decide
example : reFind serviceLifeYearPat "Year: 20245" = some "2024" := by decide
example : reFind serviceLifeYearPat "Year: 202" = none := by decide
